import Mathlib

/-!
Verification of the bridge-ui Vite plugin
src/packages/bridge-ui/scripts/vite-plugins/generateEventIndexerConfig.ts.

The plugin reads the environment at build start, optionally skips
validation, decodes a base64 JSON payload, validates it against a schema,
assembles a generated TypeScript source file and writes it twice (once
assembled, once after an external formatter).

The helpers decodeBase64ToJson, validateJsonAgainstSchema and
formatSourceFile live outside the given sources, so the model takes them
as parameters: the claims below are decided by the control flow and the
formatting code of the plugin itself, which is embedded faithfully.
-/

namespace GenerateEventIndexerConfig

/-- One event indexer entry as the formatting code uses it: an optional
list of chain ids, accessed as config.chainIds with a JS truthiness test,
and a url string interpolated into the literal. -/
structure EventIndexerConfig where
  chainIds : Option (List Nat)
  url : String
deriving DecidableEq, Repr

/-- The value found at the configuredEventIndexer property of the decoded
payload. The plugin only distinguishes a real array from everything else:
a non-array value carries its JS truthiness, because the source test is
(not v) or (not Array.isArray v). -/
inductive IndexerField where
  | array (entries : List EventIndexerConfig)
  | nonArrayValue (truthy : Bool)
deriving DecidableEq, Repr

/-- The decoded payload: an object that may or may not carry the
configuredEventIndexer property. -/
structure ConfiguredEventIndexer where
  configuredEventIndexer : Option IndexerField
deriving DecidableEq, Repr

/-- JS Array.prototype.join with a separator, on a list of numbers. -/
def jsArrayJoin (sep : String) (xs : List Nat) : String :=
  String.intercalate sep (xs.map toString)

/-- Source line 135-137: formats one entry. The conditional mirrors
config.chainIds being undefined (falsy) versus an array (always truthy,
even when empty; join of an empty array is the empty string either way). -/
def _formatEventIndexerConfigToTsLiteral (config : EventIndexerConfig) : String :=
  "\x7bchainIds: [" ++
    (match config.chainIds with
      | some ids => jsArrayJoin ", " ids
      | none => "") ++
    "], url: \"" ++ config.url ++ "\"\x7d"

/-- Source line 139-141: formats the whole array literal. -/
def _formatObjectToTsLiteral (indexer : List EventIndexerConfig) : String :=
  "[" ++ String.intercalate ", "
    (indexer.map _formatEventIndexerConfigToTsLiteral) ++ "]"

/-- The list of rendered entries appearing inside the array literal, the
map on source line 140. -/
def renderedEntries (entries : List EventIndexerConfig) : List String :=
  entries.map _formatEventIndexerConfigToTsLiteral

/-- The chainIds portion of one rendered entry, defined with no access to
the url so that the url is visibly inserted verbatim. -/
def chainIdsPart (cids : Option (List Nat)) : String :=
  match cids with
  | some ids => jsArrayJoin ", " ids
  | none => ""

/-- One statement of the assembled ts-morph source file. -/
inductive TsPart where
  | rawText (text : String)
  | typeOnlyImport (namedImports : List String) (moduleSpecifier : String)
  | variableStatement (isExported : Bool) (name : String) (type : String)
      (initializer : String)
deriving DecidableEq, Repr

/-- The process environment as the plugin reads it. Other variables are
carried along to state independence from them. -/
structure Env where
  SKIP_ENV_VALDIATION : Option String
  CONFIGURED_EVENT_INDEXER : Option String
  others : List (String × String)
deriving DecidableEq, Repr

/-- Source line 19: const skip = process.env.SKIP_ENV_VALDIATION === 'true'. -/
def skip (env : Env) : Bool :=
  env.SKIP_ENV_VALDIATION == some "true"

def pluginName : String := "generateEventIndexerConfig"

/-- Source line 54: the generated-by comment, with the current date
rendered as the string now. -/
def notificationText (now : String) : String :=
  "// Generated by " ++ pluginName ++ " on " ++ now

/-- Source line 55. -/
def warningText : String :=
  "// WARNING: Do not change this file manually as it will be overwritten"

/-- Source line 57: project.createSourceFile with the header text and
overwrite: true gives an in-memory file holding only that text. -/
def createSourceFile (headerText : String) : List TsPart :=
  [.rawText headerText]

/-- Source lines 75-86: appends the type-only import of
EventIndexerConfig from the module specifier. -/
def storeTypesAndEnums (sourceFile : List TsPart) : List TsPart :=
  sourceFile ++ [.typeOnlyImport ["EventIndexerConfig"] "$libs/eventIndexer"]

/-- An error ending buildStart: thrown (new Error with an optional
message) or propagated from the decoding helper. -/
inductive BuildError where
  | thrown (msg : Option String)
  | propagated (msg : String)
deriving DecidableEq, Repr

/-- Source line 98-100: the message logged with console.error. -/
def notArrayMessage : String :=
  "configuredEventIndexer is not an array. Please check the content of the configuredEventIndexerConfigFile."

/-- Source line 37. -/
def missingEnvMessage : String :=
  "CONFIGURED_EVENT_INDEXER is not defined in environment. Make sure to run the export step in the documentation."

/-- Source line 47. -/
def invalidSchemaMessage : String :=
  "encoded configuredEventIndexer.json is not valid."

/-- JS truthiness of the property value: undefined is falsy, arrays are
always truthy, any other value carries its own truthiness. -/
def jsFalsyField : Option IndexerField → Bool
  | none => true
  | some (.nonArrayValue t) => !t
  | some (.array _) => false

/-- Array.isArray on the property value. -/
def isArrayField : Option IndexerField → Bool
  | some (.array _) => true
  | _ => false

/-- Property access on the configuredEventIndexerConfigFile variable: in
skip mode it holds the empty string, on which the property access yields
undefined. -/
def fieldOf : Option ConfiguredEventIndexer → Option IndexerField
  | none => none
  | some c => c.configuredEventIndexer

/-- The entries of an array-valued field; the default arm is unreachable
below the Array.isArray guard. -/
def entriesOf : Option IndexerField → List EventIndexerConfig
  | some (.array entries) => entries
  | _ => []

/-- Result of buildEventIndexerConfig: messages printed to console.error,
and either the extended source file or the thrown error. -/
structure StepOut where
  consoleErrors : List String
  result : Except BuildError (List TsPart)
deriving Repr

/-- Source lines 88-133. In non-skip mode the guard mirrors line 97:
(not field) or (not Array.isArray field); when it fails, console.error is
called and a message-less Error is thrown. Otherwise, or always in skip
mode, the exported constant statement is appended. -/
def buildEventIndexerConfig (skipFlag : Bool) (sourceFile : List TsPart)
    (configuredEventIndexerConfigFile : Option ConfiguredEventIndexer) : StepOut :=
  if !skipFlag then
    let field := fieldOf configuredEventIndexerConfigFile
    if jsFalsyField field || !isArrayField field then
      ⟨[notArrayMessage], .error (.thrown none)⟩
    else
      ⟨[], .ok (sourceFile ++ [.variableStatement true "configuredEventIndexer"
          "EventIndexerConfig[]" (_formatObjectToTsLiteral (entriesOf field))])⟩
  else
    ⟨[], .ok (sourceFile ++ [.variableStatement true "configuredEventIndexer"
        "EventIndexerConfig[]" "[]"])⟩

/-- One full write of the output file: the assembled in-memory file saved
by sourceFile.save, or the result of the external formatter applied to an
assembled file, written back by fs.writeFile. -/
inductive FileWrite where
  | assembled (parts : List TsPart)
  | formatted (sourceParts : List TsPart)
deriving DecidableEq, Repr

/-- Everything observable from one buildStart run: the sequence of writes
to the output path, the console.error messages, and whether it returned
or threw. -/
structure BuildOutcome where
  writes : List FileWrite
  consoleErrors : List String
  result : Except BuildError Unit
deriving Repr

/-- JS falsiness of process.env.CONFIGURED_EVENT_INDEXER on line 35:
undefined or the empty string. -/
def envAbsent : Option String → Bool
  | none => true
  | some s => s == ""

/-- Source lines 28-71, the buildStart hook. The decode and validate
helpers live outside the given sources and are taken as parameters; now
stands for the current date string. -/
def buildStart (env : Env)
    (decodeBase64ToJson : String → Except String ConfiguredEventIndexer)
    (validateJsonAgainstSchema : ConfiguredEventIndexer → Bool)
    (now : String) : BuildOutcome :=
  let configFile : Except BuildError (Option ConfiguredEventIndexer) :=
    if skip env then
      .ok none
    else if envAbsent env.CONFIGURED_EVENT_INDEXER then
      .error (.thrown (some missingEnvMessage))
    else
      match decodeBase64ToJson (env.CONFIGURED_EVENT_INDEXER.getD "") with
      | .error e => .error (.propagated e)
      | .ok cfg =>
        if validateJsonAgainstSchema cfg then .ok (some cfg)
        else .error (.thrown (some invalidSchemaMessage))
  match configFile with
  | .error e => ⟨[], [], .error e⟩
  | .ok cfgFile =>
    let sourceFile := createSourceFile
      (notificationText now ++ "\n" ++ warningText ++ "\n")
    let sourceFile := storeTypesAndEnums sourceFile
    let step := buildEventIndexerConfig (skip env) sourceFile cfgFile
    match step.result with
    | .error e => ⟨[], step.consoleErrors, .error e⟩
    | .ok parts => ⟨[.assembled parts, .formatted parts], step.consoleErrors, .ok ()⟩

/-- The output file contents after a run, starting from arbitrary prior
contents: every write fully replaces the file. -/
def diskAfter (prior : Option FileWrite) (writes : List FileWrite) :
    Option FileWrite :=
  writes.foldl (fun _ w => some w) prior

/-- The full statement list of a successful run, as a function of the
date string and the initializer of the exported constant. -/
def generatedParts (now : String) (init : String) : List TsPart :=
  [.rawText (notificationText now ++ "\n" ++ warningText ++ "\n"),
   .typeOnlyImport ["EventIndexerConfig"] "$libs/eventIndexer",
   .variableStatement true "configuredEventIndexer" "EventIndexerConfig[]" init]

/-! Path lemmas: one lemma per control-flow path of buildStart. -/

lemma skip_eq_false (env : Env) (h : env.SKIP_ENV_VALDIATION ≠ some "true") :
    skip env = false := by
  simp [skip, h]

lemma buildStart_skip_path (env : Env)
    (d : String → Except String ConfiguredEventIndexer)
    (v : ConfiguredEventIndexer → Bool) (now : String)
    (hskip : skip env = true) :
    buildStart env d v now =
      ⟨[.assembled (generatedParts now "[]"), .formatted (generatedParts now "[]")],
       [], .ok ()⟩ := by
  simp [buildStart, hskip, buildEventIndexerConfig, createSourceFile,
    storeTypesAndEnums, generatedParts]

lemma buildStart_missing_env_path (env : Env)
    (d : String → Except String ConfiguredEventIndexer)
    (v : ConfiguredEventIndexer → Bool) (now : String)
    (hskip : skip env = false)
    (habs : envAbsent env.CONFIGURED_EVENT_INDEXER = true) :
    buildStart env d v now = ⟨[], [], .error (.thrown (some missingEnvMessage))⟩ := by
  simp [buildStart, hskip, habs]

lemma buildStart_decode_error_path (env : Env)
    (d : String → Except String ConfiguredEventIndexer)
    (v : ConfiguredEventIndexer → Bool) (now : String) (s e : String)
    (hskip : skip env = false)
    (henv : env.CONFIGURED_EVENT_INDEXER = some s)
    (hs : s ≠ "")
    (hdec : d s = .error e) :
    buildStart env d v now = ⟨[], [], .error (.propagated e)⟩ := by
  simp [buildStart, hskip, henv, envAbsent, hs, hdec]

lemma buildStart_invalid_schema_path (env : Env)
    (d : String → Except String ConfiguredEventIndexer)
    (v : ConfiguredEventIndexer → Bool) (now : String) (s : String)
    (cfg : ConfiguredEventIndexer)
    (hskip : skip env = false)
    (henv : env.CONFIGURED_EVENT_INDEXER = some s)
    (hs : s ≠ "")
    (hdec : d s = .ok cfg)
    (hval : v cfg = false) :
    buildStart env d v now = ⟨[], [], .error (.thrown (some invalidSchemaMessage))⟩ := by
  simp [buildStart, hskip, henv, envAbsent, hs, hdec, hval]

lemma buildStart_bad_field_path (env : Env)
    (d : String → Except String ConfiguredEventIndexer)
    (v : ConfiguredEventIndexer → Bool) (now : String) (s : String)
    (cfg : ConfiguredEventIndexer)
    (hskip : skip env = false)
    (henv : env.CONFIGURED_EVENT_INDEXER = some s)
    (hs : s ≠ "")
    (hdec : d s = .ok cfg)
    (hval : v cfg = true)
    (hfield : cfg.configuredEventIndexer = none ∨
      ∃ b, cfg.configuredEventIndexer = some (.nonArrayValue b)) :
    buildStart env d v now = ⟨[], [notArrayMessage], .error (.thrown none)⟩ := by
  rcases hfield with hf | ⟨b, hf⟩ <;>
    simp [buildStart, hskip, henv, envAbsent, hs, hdec, hval,
      buildEventIndexerConfig, fieldOf, hf, jsFalsyField, isArrayField]

lemma buildStart_array_path (env : Env)
    (d : String → Except String ConfiguredEventIndexer)
    (v : ConfiguredEventIndexer → Bool) (now : String) (s : String)
    (cfg : ConfiguredEventIndexer) (entries : List EventIndexerConfig)
    (hskip : skip env = false)
    (henv : env.CONFIGURED_EVENT_INDEXER = some s)
    (hs : s ≠ "")
    (hdec : d s = .ok cfg)
    (hval : v cfg = true)
    (hfield : cfg.configuredEventIndexer = some (.array entries)) :
    buildStart env d v now =
      ⟨[.assembled (generatedParts now (_formatObjectToTsLiteral entries)),
        .formatted (generatedParts now (_formatObjectToTsLiteral entries))],
       [], .ok ()⟩ := by
  simp [buildStart, hskip, henv, envAbsent, hs, hdec, hval,
    buildEventIndexerConfig, fieldOf, hfield, jsFalsyField, isArrayField,
    entriesOf, createSourceFile, storeTypesAndEnums, generatedParts]

/-- Claim C4: an entry with chain ids [n1, n2, ...] and url u renders as
the literal with the numbers joined by comma-space, and the concrete
example with chain ids [1, 10] and url https://x.test renders exactly as
stated. -/
theorem entry_renders_with_comma_space_join (ids : List Nat) (u : String) :
    _formatEventIndexerConfigToTsLiteral ⟨some ids, u⟩ =
      "\x7bchainIds: [" ++ String.intercalate ", " (ids.map toString) ++
        "], url: \"" ++ u ++ "\"\x7d" ∧
    _formatEventIndexerConfigToTsLiteral ⟨some [1, 10], "https://x.test"⟩ =
      "\x7bchainIds: [1, 10], url: \"https://x.test\"\x7d" := by
  constructor
  · simp [_formatEventIndexerConfigToTsLiteral, jsArrayJoin]
  · rfl

/-- Claim C7: an entry whose chain id list is absent, and an entry whose
chain id list is the empty array, both render the chainIds field as an
empty bracket. -/
theorem absent_or_empty_chainIds_render_empty_bracket (u : String) :
    _formatEventIndexerConfigToTsLiteral ⟨none, u⟩ =
      "\x7bchainIds: [], url: \"" ++ u ++ "\"\x7d" ∧
    _formatEventIndexerConfigToTsLiteral ⟨some [], u⟩ =
      "\x7bchainIds: [], url: \"" ++ u ++ "\"\x7d" := by
  exact ⟨rfl, rfl⟩

/-- Claim C8: the url is embedded verbatim between two double quotes,
with no escaping: the rendered entry is a url-independent part followed
by the quoted raw url, and a url containing a double quote is inserted
unchanged. -/
theorem url_embedded_verbatim :
    (∀ (cids : Option (List Nat)) (u : String),
      _formatEventIndexerConfigToTsLiteral ⟨cids, u⟩ =
        "\x7bchainIds: [" ++ chainIdsPart cids ++ "], url: \"" ++ u ++ "\"\x7d") ∧
    (∀ u : String,
      (_formatEventIndexerConfigToTsLiteral ⟨none, u⟩).data =
        "\x7bchainIds: [], url: \"".data ++ u.data ++ "\"\x7d".data) ∧
    _formatEventIndexerConfigToTsLiteral ⟨none, "https://x.test/\"evil"⟩ =
      "\x7bchainIds: [], url: \"https://x.test/\"evil\"\x7d" := by
  refine ⟨fun cids u => ?_, fun u => ?_, rfl⟩
  · cases cids <;> rfl
  · show (("\x7bchainIds: [], url: \"" ++ u) ++ "\"\x7d").data = _
    simp [String.data_append, List.append_assoc]

/-- Claim C1: with SKIP_ENV_VALDIATION set to true, buildStart produces
the exported constant initialized to the empty array literal, with an
outcome that does not depend on the decode helper, the validator,
CONFIGURED_EVENT_INDEXER or any other environment variable. -/
theorem skip_true_generates_empty_array (env : Env)
    (d : String → Except String ConfiguredEventIndexer)
    (v : ConfiguredEventIndexer → Bool) (now : String)
    (h : env.SKIP_ENV_VALDIATION = some "true") :
    buildStart env d v now =
      ⟨[.assembled (generatedParts now "[]"), .formatted (generatedParts now "[]")],
       [], .ok ()⟩ :=
  buildStart_skip_path env d v now (by simp [skip, h])

theorem skip_true_generates_empty_array_witness :
    buildStart ⟨some "true", some "malformed base64", [("OTHER", "junk")]⟩
        (fun _ => .error "decode blew up") (fun _ => false) "2024-01-01" =
      ⟨[.assembled (generatedParts "2024-01-01" "[]"),
        .formatted (generatedParts "2024-01-01" "[]")], [], .ok ()⟩ :=
  skip_true_generates_empty_array _ _ _ _ rfl

/-- Claim C2: without skip mode, an absent (undefined or empty)
CONFIGURED_EVENT_INDEXER makes buildStart throw the descriptive message,
with no write to the output file, whose prior contents are unchanged. -/
theorem missing_env_throws_before_write (env : Env)
    (d : String → Except String ConfiguredEventIndexer)
    (v : ConfiguredEventIndexer → Bool) (now : String) (prior : Option FileWrite)
    (hskip : env.SKIP_ENV_VALDIATION ≠ some "true")
    (habs : env.CONFIGURED_EVENT_INDEXER = none ∨
      env.CONFIGURED_EVENT_INDEXER = some "") :
    (buildStart env d v now).result = .error (.thrown (some missingEnvMessage)) ∧
    (buildStart env d v now).writes = [] ∧
    diskAfter prior (buildStart env d v now).writes = prior := by
  have hmain := buildStart_missing_env_path env d v now (skip_eq_false env hskip)
    (by rcases habs with h | h <;> simp [envAbsent, h])
  simp [hmain, diskAfter]

theorem missing_env_throws_before_write_witness :
    (buildStart ⟨none, none, []⟩ (fun _ => .error "e") (fun _ => true) "t").result =
      .error (.thrown (some missingEnvMessage)) ∧
    (buildStart ⟨none, none, []⟩ (fun _ => .error "e") (fun _ => true) "t").writes = [] ∧
    diskAfter (some (.assembled []))
      (buildStart ⟨none, none, []⟩ (fun _ => .error "e") (fun _ => true) "t").writes =
      some (.assembled []) :=
  missing_env_throws_before_write _ _ _ "t" _ (by simp) (Or.inl rfl)

/-- Claim C6: without skip mode, a present CONFIGURED_EVENT_INDEXER whose
decoded value fails schema validation makes buildStart throw, and no
output file write happens in that run. -/
theorem invalid_schema_throws_no_write (env : Env)
    (d : String → Except String ConfiguredEventIndexer)
    (v : ConfiguredEventIndexer → Bool) (now : String) (prior : Option FileWrite)
    (s : String) (cfg : ConfiguredEventIndexer)
    (hskip : env.SKIP_ENV_VALDIATION ≠ some "true")
    (henv : env.CONFIGURED_EVENT_INDEXER = some s)
    (hs : s ≠ "")
    (hdec : d s = .ok cfg)
    (hval : v cfg = false) :
    (buildStart env d v now).result = .error (.thrown (some invalidSchemaMessage)) ∧
    (buildStart env d v now).writes = [] ∧
    diskAfter prior (buildStart env d v now).writes = prior := by
  have hmain := buildStart_invalid_schema_path env d v now s cfg
    (skip_eq_false env hskip) henv hs hdec hval
  simp [hmain, diskAfter]

theorem invalid_schema_throws_no_write_witness :
    (buildStart ⟨none, some "eyJ9", []⟩ (fun _ => .ok ⟨none⟩) (fun _ => false) "t").result =
      .error (.thrown (some invalidSchemaMessage)) ∧
    (buildStart ⟨none, some "eyJ9", []⟩ (fun _ => .ok ⟨none⟩) (fun _ => false) "t").writes = [] ∧
    diskAfter none
      (buildStart ⟨none, some "eyJ9", []⟩ (fun _ => .ok ⟨none⟩) (fun _ => false) "t").writes =
      none :=
  invalid_schema_throws_no_write _ _ _ "t" none "eyJ9" ⟨none⟩ (by simp) rfl
    (by simp) rfl rfl

/-- Claim C5: without skip mode, a decoded and schema-valid payload whose
configuredEventIndexer field is missing or not an array makes buildStart
log the message to error output and then throw, with no write to the
output file. -/
theorem bad_field_logs_then_throws_no_write (env : Env)
    (d : String → Except String ConfiguredEventIndexer)
    (v : ConfiguredEventIndexer → Bool) (now : String) (prior : Option FileWrite)
    (s : String) (cfg : ConfiguredEventIndexer)
    (hskip : env.SKIP_ENV_VALDIATION ≠ some "true")
    (henv : env.CONFIGURED_EVENT_INDEXER = some s)
    (hs : s ≠ "")
    (hdec : d s = .ok cfg)
    (hval : v cfg = true)
    (hfield : cfg.configuredEventIndexer = none ∨
      ∃ b, cfg.configuredEventIndexer = some (.nonArrayValue b)) :
    (buildStart env d v now).consoleErrors = [notArrayMessage] ∧
    (buildStart env d v now).result = .error (.thrown none) ∧
    (buildStart env d v now).writes = [] ∧
    diskAfter prior (buildStart env d v now).writes = prior := by
  have hmain := buildStart_bad_field_path env d v now s cfg
    (skip_eq_false env hskip) henv hs hdec hval hfield
  simp [hmain, diskAfter]

theorem bad_field_logs_then_throws_no_write_witness :
    (buildStart ⟨none, some "x", []⟩ (fun _ => .ok ⟨some (.nonArrayValue true)⟩)
        (fun _ => true) "t").consoleErrors = [notArrayMessage] ∧
    (buildStart ⟨none, some "x", []⟩ (fun _ => .ok ⟨some (.nonArrayValue true)⟩)
        (fun _ => true) "t").result = .error (.thrown none) ∧
    (buildStart ⟨none, some "x", []⟩ (fun _ => .ok ⟨some (.nonArrayValue true)⟩)
        (fun _ => true) "t").writes = [] ∧
    diskAfter none
      (buildStart ⟨none, some "x", []⟩ (fun _ => .ok ⟨some (.nonArrayValue true)⟩)
        (fun _ => true) "t").writes = none :=
  bad_field_logs_then_throws_no_write _ _ _ "t" none "x" ⟨some (.nonArrayValue true)⟩
    (by simp) rfl (by simp) rfl rfl (Or.inr ⟨true, rfl⟩)

/-- Claim C3: for a decoded, schema-valid payload whose field is an array
of entries, the generated constant is initialized with the array literal
whose rendered entry list has exactly one entry per input entry and keeps
the input order. -/
theorem valid_array_one_entry_each_in_order (env : Env)
    (d : String → Except String ConfiguredEventIndexer)
    (v : ConfiguredEventIndexer → Bool) (now : String) (s : String)
    (cfg : ConfiguredEventIndexer) (entries : List EventIndexerConfig)
    (hskip : env.SKIP_ENV_VALDIATION ≠ some "true")
    (henv : env.CONFIGURED_EVENT_INDEXER = some s)
    (hs : s ≠ "")
    (hdec : d s = .ok cfg)
    (hval : v cfg = true)
    (hfield : cfg.configuredEventIndexer = some (.array entries)) :
    (buildStart env d v now).writes =
      [.assembled (generatedParts now (_formatObjectToTsLiteral entries)),
       .formatted (generatedParts now (_formatObjectToTsLiteral entries))] ∧
    _formatObjectToTsLiteral entries =
      "[" ++ String.intercalate ", " (renderedEntries entries) ++ "]" ∧
    (renderedEntries entries).length = entries.length ∧
    (∀ i : Nat, (renderedEntries entries)[i]? =
      (entries[i]?).map _formatEventIndexerConfigToTsLiteral) := by
  have hmain := buildStart_array_path env d v now s cfg entries
    (skip_eq_false env hskip) henv hs hdec hval hfield
  refine ⟨by rw [hmain], rfl, by simp [renderedEntries], fun i => ?_⟩
  simp [renderedEntries]

theorem valid_array_one_entry_each_in_order_witness :
    (buildStart ⟨none, some "x", []⟩
        (fun _ => .ok ⟨some (.array [⟨some [1, 10], "https://x.test"⟩, ⟨none, "b"⟩])⟩)
        (fun _ => true) "t").writes =
      [.assembled (generatedParts "t"
          (_formatObjectToTsLiteral [⟨some [1, 10], "https://x.test"⟩, ⟨none, "b"⟩])),
       .formatted (generatedParts "t"
          (_formatObjectToTsLiteral [⟨some [1, 10], "https://x.test"⟩, ⟨none, "b"⟩]))] ∧
    _formatObjectToTsLiteral [⟨some [1, 10], "https://x.test"⟩, ⟨none, "b"⟩] =
      "[" ++ String.intercalate ", "
        (renderedEntries [⟨some [1, 10], "https://x.test"⟩, ⟨none, "b"⟩]) ++ "]" ∧
    (renderedEntries [⟨some [1, 10], "https://x.test"⟩, ⟨none, "b"⟩]).length =
      ([⟨some [1, 10], "https://x.test"⟩, ⟨none, "b"⟩] :
        List EventIndexerConfig).length ∧
    (∀ i : Nat,
      (renderedEntries [⟨some [1, 10], "https://x.test"⟩, ⟨none, "b"⟩])[i]? =
        (([⟨some [1, 10], "https://x.test"⟩, ⟨none, "b"⟩] :
          List EventIndexerConfig)[i]?).map _formatEventIndexerConfigToTsLiteral) :=
  valid_array_one_entry_each_in_order ⟨none, some "x", []⟩
    (fun _ => .ok ⟨some (.array [⟨some [1, 10], "https://x.test"⟩, ⟨none, "b"⟩])⟩)
    (fun _ => true) "t" "x" ⟨some (.array [⟨some [1, 10], "https://x.test"⟩, ⟨none, "b"⟩])⟩
    [⟨some [1, 10], "https://x.test"⟩, ⟨none, "b"⟩]
    (by simp) rfl (by simp) rfl rfl rfl

/-- Inversion: a run that returned normally either took the skip path or
went through a present variable, a successful decode, a passing
validation and an array-valued field. -/
lemma buildStart_result_ok_inversion (env : Env)
    (d : String → Except String ConfiguredEventIndexer)
    (v : ConfiguredEventIndexer → Bool) (now : String)
    (hok : (buildStart env d v now).result = .ok ()) :
    skip env = true ∨
    ∃ s cfg entries, skip env = false ∧ env.CONFIGURED_EVENT_INDEXER = some s ∧
      s ≠ "" ∧ d s = .ok cfg ∧ v cfg = true ∧
      cfg.configuredEventIndexer = some (.array entries) := by
  by_cases hsk : skip env = true
  · exact Or.inl hsk
  · have hsk' : skip env = false := by simpa using hsk
    right
    cases henv : env.CONFIGURED_EVENT_INDEXER with
    | none =>
      rw [buildStart_missing_env_path env d v now hsk' (by rw [henv]; rfl)] at hok
      simp at hok
    | some s =>
      by_cases hs : s = ""
      · rw [buildStart_missing_env_path env d v now hsk'
          (by rw [henv, hs]; rfl)] at hok
        simp at hok
      · cases hd : d s with
        | error e =>
          rw [buildStart_decode_error_path env d v now s e hsk' henv hs hd] at hok
          simp at hok
        | ok cfg =>
          by_cases hv : v cfg = true
          · cases hf : cfg.configuredEventIndexer with
            | none =>
              rw [buildStart_bad_field_path env d v now s cfg hsk' henv hs hd hv
                (Or.inl hf)] at hok
              simp at hok
            | some fld =>
              cases fld with
              | array entries => exact ⟨s, cfg, entries, hsk', rfl, hs, hd, hv, hf⟩
              | nonArrayValue b =>
                rw [buildStart_bad_field_path env d v now s cfg hsk' henv hs hd hv
                  (Or.inr ⟨b, hf⟩)] at hok
                simp at hok
          · have hv' : v cfg = false := by simpa using hv
            rw [buildStart_invalid_schema_path env d v now s cfg hsk' henv hs hd hv'] at hok
            simp at hok

/-- Claim C9: every successful run writes exactly two versions of one
fully determined file, first the assembled statements (timestamp comment,
warning comment, type-only import, one exported typed constant whose
initializer is the formatted literal, or the empty array in skip mode)
and then its formatted rendering, and the final disk contents do not
depend on the prior contents. -/
theorem successful_run_writes_full_file (env : Env)
    (d : String → Except String ConfiguredEventIndexer)
    (v : ConfiguredEventIndexer → Bool) (now : String) (prior : Option FileWrite)
    (hok : (buildStart env d v now).result = .ok ()) :
    ∃ init : String,
      (buildStart env d v now).writes =
        [.assembled (generatedParts now init), .formatted (generatedParts now init)] ∧
      (skip env = true → init = "[]") ∧
      (skip env = false → ∃ entries, init = _formatObjectToTsLiteral entries) ∧
      diskAfter prior (buildStart env d v now).writes =
        some (.formatted (generatedParts now init)) := by
  rcases buildStart_result_ok_inversion env d v now hok with hsk |
    ⟨s, cfg, entries, hsk, henv, hs, hd, hv, hf⟩
  · have hb := buildStart_skip_path env d v now hsk
    exact ⟨"[]", by rw [hb], fun _ => rfl, fun hfalse => by simp [hsk] at hfalse,
      by rw [hb]; rfl⟩
  · have hb := buildStart_array_path env d v now s cfg entries hsk henv hs hd hv hf
    exact ⟨_formatObjectToTsLiteral entries, by rw [hb],
      fun htrue => by simp [hsk] at htrue, fun _ => ⟨entries, rfl⟩,
      by rw [hb]; rfl⟩

theorem successful_run_writes_full_file_witness :
    ∃ init : String,
      (buildStart ⟨some "true", none, []⟩ (fun _ => .error "e")
          (fun _ => true) "t").writes =
        [.assembled (generatedParts "t" init), .formatted (generatedParts "t" init)] ∧
      (skip ⟨some "true", none, []⟩ = true → init = "[]") ∧
      (skip ⟨some "true", none, []⟩ = false →
        ∃ entries, init = _formatObjectToTsLiteral entries) ∧
      diskAfter (some (.assembled []))
        (buildStart ⟨some "true", none, []⟩ (fun _ => .error "e")
          (fun _ => true) "t").writes =
        some (.formatted (generatedParts "t" init)) :=
  successful_run_writes_full_file ⟨some "true", none, []⟩ (fun _ => .error "e")
    (fun _ => true) "t" (some (.assembled [])) rfl

/-- Claim C10: the skip path is taken exactly when SKIP_ENV_VALDIATION is
the exact string true; any other value, TRUE, True and 1 included, leaves
skip false, and the hook then requires CONFIGURED_EVENT_INDEXER to be
present and schema-valid. -/
theorem skip_requires_exact_true (env : Env)
    (d : String → Except String ConfiguredEventIndexer)
    (v : ConfiguredEventIndexer → Bool) (now : String) :
    (skip env = true ↔ env.SKIP_ENV_VALDIATION = some "true") ∧
    (env.SKIP_ENV_VALDIATION ≠ some "true" →
      envAbsent env.CONFIGURED_EVENT_INDEXER = true →
      (buildStart env d v now).result = .error (.thrown (some missingEnvMessage))) ∧
    (∀ s cfg, env.SKIP_ENV_VALDIATION ≠ some "true" →
      env.CONFIGURED_EVENT_INDEXER = some s → s ≠ "" →
      d s = .ok cfg → v cfg = false →
      (buildStart env d v now).result = .error (.thrown (some invalidSchemaMessage))) ∧
    skip ⟨some "TRUE", none, []⟩ = false ∧
    skip ⟨some "True", none, []⟩ = false ∧
    skip ⟨some "1", none, []⟩ = false := by
  refine ⟨by simp [skip], fun h1 h2 => ?_, fun s cfg h1 h2 h3 h4 h5 => ?_,
    rfl, rfl, rfl⟩
  · rw [buildStart_missing_env_path env d v now (skip_eq_false env h1) h2]
  · rw [buildStart_invalid_schema_path env d v now s cfg (skip_eq_false env h1)
      h2 h3 h4 h5]

theorem skip_requires_exact_true_witness :
    skip ⟨some "TRUE", some "", []⟩ = false ∧
    (buildStart ⟨some "TRUE", some "", []⟩ (fun _ => .error "e")
        (fun _ => true) "t").result = .error (.thrown (some missingEnvMessage)) := by
  have h := skip_requires_exact_true ⟨some "TRUE", some "", []⟩
    (fun _ => .error "e") (fun _ => true) "t"
  exact ⟨rfl, h.2.1 (by simp) rfl⟩

end GenerateEventIndexerConfig
